import Mathlib

/-
Shallow embedding of src/docs/examples/python/metadata_client.py.

The client builds one GET request, sends it through the `requests` library,
and classifies the response: status 200 returns the JSON-decoded body, any
other status goes through `_handle_error_response`, which raises one of the
CODAPMetadataError exception classes. The spec names the raise sites as
error kinds (BadRequest, AuthenticationFailed, SessionExpired,
MethodNotAllowed, VersionNotSupported, ServerError, UnknownHttpError,
TransportError); each raise site here becomes one constructor, carrying the
fields the Python constructor call passes (message, code, status_code, and
for the 406 site the requested and supported versions).

External collaborators are embedded at their interface:
  - the transport call either raises a `requests.RequestException` (carrying
    the exception text) or yields a status code and a body;
  - JSON decoding of the body is given as an oracle: the body either fails
    to decode (carrying the raw text and the decode-exception text) or
    decodes to a `Json` value.  An empty body never decodes.
  - In `requests` (2.27 and later) `Response.json()` on an undecodable body
    raises `requests.exceptions.JSONDecodeError`, a subclass of
    `RequestException`; the embedding follows that behaviour.

Python dynamism is made explicit: an operation that raises an untyped
exception (AttributeError, KeyError, TypeError) is modelled as `none` /
`PyResult.crash`.
-/

namespace MetadataClient

/-- JSON values, as produced by `response.json()` (Python `json.loads`).
Numbers are restricted to integers; no claim touches floats. Objects
produced by `json.loads` have unique keys. -/
inductive Json where
  | null
  | bool (b : Bool)
  | num (n : Int)
  | str (s : String)
  | arr (xs : List Json)
  | obj (fields : List (String × Json))

/-- Dictionary lookup on the fields of a JSON object (first match; objects
from `json.loads` have unique keys, so first and last match coincide). -/
def lookupField (kvs : List (String × Json)) (k : String) : Option Json :=
  List.lookup k kvs

mutual

/-- Python `repr`, as used when a non-string value is interpolated inside a
container rendering. Escape subtleties inside strings are not modelled; no
claim depends on them. -/
def pyRepr : Json → String
  | .null => "None"
  | .bool true => "True"
  | .bool false => "False"
  | .num n => toString n
  | .str s => "\x27" ++ s ++ "\x27"
  | .arr xs => "[" ++ pyReprElems xs ++ "]"
  | .obj kvs => "\x7b" ++ pyReprFields kvs ++ "\x7d"

def pyReprElems : List Json → String
  | [] => ""
  | [x] => pyRepr x
  | x :: xs => pyRepr x ++ ", " ++ pyReprElems xs

def pyReprFields : List (String × Json) → String
  | [] => ""
  | [(k, v)] => "\x27" ++ k ++ "\x27: " ++ pyRepr v
  | (k, v) :: kvs => "\x27" ++ k ++ "\x27: " ++ pyRepr v ++ ", " ++ pyReprFields kvs

end

/-- Python `str`, as applied by an f-string to an interpolated value. -/
def pyStr : Json → String
  | .str s => s
  | j => pyRepr j

/-- Python `value == tool_name` where `tool_name` is a `str`: true exactly
when `value` is that same string; comparison across types yields False
without raising. -/
def pyEqStr (v : Json) (s : String) : Bool :=
  match v with
  | .str t => t = s
  | _ => false

/-- Python `x[k]` subscription with a string key: succeeds only on a dict
that has the key. `none` models the untyped exception (KeyError on a dict
without the key, TypeError on a non-dict). Also used for `d.get(k)` at call
sites where the receiver is already known to be a dict, where `none` is the
Python `None` returned for an absent key. -/
def jsonIndex (j : Json) (k : String) : Option Json :=
  match j with
  | .obj kvs => lookupField kvs k
  | _ => none

/-- The body of an HTTP response, given through the JSON-decoding oracle:
either the decode fails (carrying the raw `response.text` and the text of
the decode exception), or it yields a JSON value. An empty text never
decodes. -/
inductive Body where
  | undecodable (text : String) (errText : String)
  | decoded (j : Json)

/-- The spec names eight error kinds; the Python code realises them as four
exception classes plus the message prefix of each raise site. -/
inductive ErrorKind where
  | badRequest
  | authenticationFailed
  | sessionExpired
  | methodNotAllowed
  | versionNotSupported
  | serverError
  | unknownHttp
  | transportError
deriving DecidableEq

/-- One constructor per raise site of the client. Every constructor carries
the `(message, code, status_code)` triple stored by the
`CODAPMetadataError` base class; `versionNotSupported` additionally carries
the `requested_version` and `supported_versions` attributes of
`VersionNotSupportedError` (any JSON values, as Python does not check the
annotated types). -/
inductive ClientError where
  | badRequest (message : String) (code : Option String) (statusCode : Option Nat)
  | authenticationFailed (message : String) (code : Option String) (statusCode : Option Nat)
  | sessionExpired (message : String) (code : Option String) (statusCode : Option Nat)
  | methodNotAllowed (message : String) (code : Option String) (statusCode : Option Nat)
  | versionNotSupported (message : String) (code : Option String) (statusCode : Option Nat)
      (requestedVersion : Json) (supportedVersions : Json)
  | serverError (message : String) (code : Option String) (statusCode : Option Nat)
  | unknownHttp (message : String) (code : Option String) (statusCode : Option Nat)
  | transportError (message : String) (code : Option String) (statusCode : Option Nat)

def ClientError.kind : ClientError → ErrorKind
  | .badRequest .. => .badRequest
  | .authenticationFailed .. => .authenticationFailed
  | .sessionExpired .. => .sessionExpired
  | .methodNotAllowed .. => .methodNotAllowed
  | .versionNotSupported .. => .versionNotSupported
  | .serverError .. => .serverError
  | .unknownHttp .. => .unknownHttp
  | .transportError .. => .transportError

def ClientError.message : ClientError → String
  | .badRequest m _ _ => m
  | .authenticationFailed m _ _ => m
  | .sessionExpired m _ _ => m
  | .methodNotAllowed m _ _ => m
  | .versionNotSupported m _ _ _ _ => m
  | .serverError m _ _ => m
  | .unknownHttp m _ _ => m
  | .transportError m _ _ => m

def ClientError.code : ClientError → Option String
  | .badRequest _ c _ => c
  | .authenticationFailed _ c _ => c
  | .sessionExpired _ c _ => c
  | .methodNotAllowed _ c _ => c
  | .versionNotSupported _ c _ _ _ => c
  | .serverError _ c _ => c
  | .unknownHttp _ c _ => c
  | .transportError _ c _ => c

def ClientError.statusCode : ClientError → Option Nat
  | .badRequest _ _ s => s
  | .authenticationFailed _ _ s => s
  | .sessionExpired _ _ s => s
  | .methodNotAllowed _ _ s => s
  | .versionNotSupported _ _ s _ _ => s
  | .serverError _ _ s => s
  | .unknownHttp _ _ s => s
  | .transportError _ _ s => s

/-- Embedding of `CODAPMetadataClient._handle_error_response` (lines
199-228). The Python code first builds `error_data`: the decoded body, or
on decode failure the dict `\x7berror: response.text or "Unknown error"\x7d`.
It then evaluates `error_data.get("error", ...)` BEFORE dispatching on the
status code, so a body that decodes to a non-dict JSON value raises
AttributeError for every status, modelled as `none`. The value fetched by
`.get` is interpolated into f-strings, so it is stringified here at fetch
time, which is observationally the same. The function always raises; the
returned error is the raised exception. -/
def _handle_error_response (status_code : Nat) (body : Body) : Option ClientError :=
  let error_data : Json :=
    match body with
    | .undecodable text _ => .obj [("error", .str (if text = "" then "Unknown error" else text))]
    | .decoded j => j
  match error_data with
  | .obj kvs =>
    let error_message : String :=
      match lookupField kvs "error" with
      | some v => pyStr v
      | none => "HTTP " ++ toString status_code ++ " error"
    some (
      if status_code = 400 then
        .badRequest ("Bad Request: " ++ error_message) none (some status_code)
      else if status_code = 401 then
        .authenticationFailed ("Unauthorized: " ++ error_message) (some "AUTHENTICATION_FAILED") (some status_code)
      else if status_code = 403 then
        .sessionExpired ("Forbidden: " ++ error_message) (some "SESSION_EXPIRED") (some status_code)
      else if status_code = 405 then
        .methodNotAllowed ("Method Not Allowed: " ++ error_message) none (some status_code)
      else if status_code = 406 then
        let requested_version := (lookupField kvs "requestedVersion").getD (.str "unknown")
        let supported_versions := (lookupField kvs "supportedVersions").getD (.arr [])
        -- VersionNotSupportedError.__init__ forwards only (message, code) to
        -- the base class, so its status_code attribute stays None.
        .versionNotSupported ("Unsupported version: " ++ pyStr requested_version)
          (some "VERSION_NOT_SUPPORTED") none requested_version supported_versions
      else if status_code = 500 then
        .serverError ("Internal Server Error: " ++ error_message) none (some status_code)
      else
        .unknownHttp ("HTTP " ++ toString status_code ++ ": " ++ error_message) none (some status_code))
  | _ => none

/-- Outcome of `self.session.get(url, headers=headers, timeout=self.timeout)`
followed, on the 200 path, by `response.json()`: either the transport raises
a `requests.RequestException` (network error, timeout) carrying its text, or
a response with a status code and a body arrives. -/
inductive HttpOutcome where
  | exn (message : String)
  | response (status : Nat) (body : Body)

/-- Result of running a client method: a returned value, a raised
`CODAPMetadataError` (or subclass), or an untyped Python exception
(AttributeError, KeyError, TypeError). -/
inductive PyResult (α : Type) where
  | ok (a : α)
  | clientError (e : ClientError)
  | crash

/-- Embedding of `CODAPMetadataClient.get_tool_manifest` (lines 81-115),
response processing. The `api_version` argument only shapes the request (see
`build_request`); the processing of the HTTP outcome does not depend on it.
On status 200 the decoded body is returned as-is; a decode failure raises
`requests.exceptions.JSONDecodeError`, which is a `RequestException`, so the
`except` clause converts it, like a network error, into
`CODAPMetadataError("Network error: ...")` with no code and no status. On
any other status `_handle_error_response` raises; the exceptions it raises
are not `RequestException`s and propagate. The `print` logging of response
headers is advisory and not modelled. -/
def get_tool_manifest (h : HttpOutcome) : PyResult Json :=
  match h with
  | .exn msg => .clientError (.transportError ("Network error: " ++ msg) none none)
  | .response status body =>
    if status = 200 then
      match body with
      | .decoded j => .ok j
      | .undecodable _ errText =>
        .clientError (.transportError ("Network error: " ++ errText) none none)
    else
      match _handle_error_response status body with
      | some e => .clientError e
      | none => .crash

/-- Python `base_url.rstrip("/")`: drop every trailing slash character. -/
def rstripSlash (s : String) : String :=
  String.mk (List.reverse (List.dropWhile (fun c => c == '/') (List.reverse s.data)))

structure BuiltRequest where
  url : String
  headers : List (String × String)

/-- Embedding of the request construction in `__init__` (line 72, which
stores `base_url.rstrip("/")`) and `get_tool_manifest` (lines 94-99): the
URL interpolation and the per-request headers dict, which gains an
`Accept-Version` entry under `if api_version:` — a Python truthiness test,
false for both `None` and the empty string. The session-level headers
(`Content-Type`, `User-Agent`) are set once in `__init__` and merged by the
`requests` library at send time. -/
def build_request (base_url session_code : String) (api_version : Option String) : BuiltRequest :=
  { url := rstripSlash base_url ++ "/api/sessions/" ++ session_code ++ "/metadata"
    headers :=
      match api_version with
      | some v => if v = "" then [] else [("Accept-Version", v)]
      | none => [] }

/-- Session-level default headers installed by `__init__` (lines 76-79). -/
def session_headers : List (String × String) :=
  [("Content-Type", "application/json"),
   ("User-Agent", "CODAP-Metadata-Client-Python/1.0.0")]

/-- Evaluation of `manifest["tools"]` followed by iterating the result, as
the three convenience methods do. `list ts` is the ordinary case. A
missing key, a non-dict manifest, or a non-iterable value is an untyped
exception (`crash`); iterating a NON-EMPTY dict or string yields elements
whose `["name"]` subscription raises TypeError at first use, also `crash`;
an EMPTY dict or string iterates zero times (`emptyIter`), which Python
lets through. -/
inductive ToolsVal where
  | list (ts : List Json)
  | emptyIter
  | crash

def toolsOf (manifest : Json) : ToolsVal :=
  match jsonIndex manifest "tools" with
  | some (.arr ts) => .list ts
  | some (.obj []) => .emptyIter
  | some (.str "") => .emptyIter
  | some _ => .crash
  | none => .crash

/-- Python `any(tool["name"] == tool_name for tool in tools)`: evaluated
left to right, stopping at the first True; a tool without a usable `name`
subscription raises before later elements are reached (`none`). -/
def anyToolNamed (tool_name : String) : List Json → Option Bool
  | [] => some false
  | t :: ts =>
    match jsonIndex t "name" with
    | none => none
    | some v => if pyEqStr v tool_name then some true else anyToolNamed tool_name ts

/-- The loop of `get_tool_schema`: first tool whose name matches yields
`tool.get("inputSchema")` (Python `None` when absent — indistinguishable
from not-found); falling off the loop yields `None`. The receiver of
`.get` here is a dict, since its `["name"]` subscription succeeded. -/
def findToolSchema (tool_name : String) : List Json → Option (Option Json)
  | [] => some none
  | t :: ts =>
    match jsonIndex t "name" with
    | none => none
    | some v =>
      if pyEqStr v tool_name then some (jsonIndex t "inputSchema")
      else findToolSchema tool_name ts

/-- The list comprehension of `list_available_tools`: per tool, the pair
`(tool["name"], tool["description"])`, in order; a failing subscription
raises (`none`). -/
def collectTools : List Json → Option (List (Json × Json))
  | [] => some []
  | t :: ts =>
    match jsonIndex t "name", jsonIndex t "description" with
    | some n, some d => (collectTools ts).map (fun ps => (n, d) :: ps)
    | _, _ => none

/-- Embedding of `is_tool_available` (lines 117-132): any raised
`CODAPMetadataError` (all `ClientError` kinds, the transport kind included)
is caught, printed, and turned into `False`; untyped exceptions pass
through. -/
def is_tool_available (h : HttpOutcome) (tool_name : String) : PyResult Bool :=
  match get_tool_manifest h with
  | .ok manifest =>
    match toolsOf manifest with
    | .list ts =>
      match anyToolNamed tool_name ts with
      | some b => .ok b
      | none => .crash
    | .emptyIter => .ok false
    | .crash => .crash
  | .clientError _ => .ok false
  | .crash => .crash

/-- Embedding of `get_tool_schema` (lines 134-152): on any
`CODAPMetadataError`, returns `None`. -/
def get_tool_schema (h : HttpOutcome) (tool_name : String) : PyResult (Option Json) :=
  match get_tool_manifest h with
  | .ok manifest =>
    match toolsOf manifest with
    | .list ts =>
      match findToolSchema tool_name ts with
      | some r => .ok r
      | none => .crash
    | .emptyIter => .ok none
    | .crash => .crash
  | .clientError _ => .ok none
  | .crash => .crash

/-- Embedding of `list_available_tools` (lines 154-172): on any
`CODAPMetadataError`, returns the empty list. -/
def list_available_tools (h : HttpOutcome) : PyResult (List (Json × Json)) :=
  match get_tool_manifest h with
  | .ok manifest =>
    match toolsOf manifest with
    | .list ts =>
      match collectTools ts with
      | some ps => .ok ps
      | none => .crash
    | .emptyIter => .ok []
    | .crash => .crash
  | .clientError _ => .ok []
  | .crash => .crash

/-- The `VersionNegotiationResult` dataclass (lines 23-31); every field but
`success` defaults to `None`. `version`, `requested_version`,
`supported_versions` and `manifest` hold whatever JSON values the
constructing code passes. -/
structure VersionNegotiationResult where
  success : Bool
  version : Option Json := none
  error : Option String := none
  requested_version : Option Json := none
  supported_versions : Option Json := none
  manifest : Option Json := none

/-- Embedding of `test_version_negotiation` (lines 174-197). The
`requested_version` argument is forwarded to `get_tool_manifest` (shaping
only the request, see `build_request`) and plays no further role: the
failure fields come from the caught `VersionNotSupportedError`, the only
exception class caught here. On success, `manifest["apiVersion"]`
subscription can raise (KeyError / TypeError) when the 200 body is not a
dict with that key. -/
def test_version_negotiation (requested_version : String) (h : HttpOutcome) :
    PyResult VersionNegotiationResult :=
  match get_tool_manifest h with
  | .ok manifest =>
    match jsonIndex manifest "apiVersion" with
    | some v => .ok { success := true, version := some v, manifest := some manifest }
    | none => .crash
  | .clientError e =>
    match e with
    | .versionNotSupported msg _ _ rv sv =>
      .ok { success := false, error := some msg, requested_version := some rv,
            supported_versions := some sv }
    | e => .clientError e
  | .crash => .crash

/-- A body on which `_handle_error_response` cannot raise an untyped
exception: decode failed (the substituted dict applies) or the decode
yielded a dict. -/
def dictOrUndecodable : Body → Bool
  | .undecodable _ _ => true
  | .decoded (.obj _) => true
  | .decoded _ => false

/-- A tool descriptor usable by every convenience method: a dict whose
`name` is a string and whose `description` is present. -/
def wfTool (t : Json) : Bool :=
  match jsonIndex t "name", jsonIndex t "description" with
  | some (.str _), some _ => true
  | _, _ => false

/-- Does this tool descriptor have exactly the given name? -/
def toolNameIs (tool_name : String) (t : Json) : Bool :=
  match jsonIndex t "name" with
  | some v => pyEqStr v tool_name
  | none => false

/-- A concrete well-formed tool descriptor, used to instantiate theorems. -/
def sampleTool : Json :=
  Json.obj [("name", Json.str "x"), ("description", Json.str "d")]

/-- A concrete well-formed manifest, used to instantiate theorems. -/
def sampleManifest : Json :=
  Json.obj [("apiVersion", Json.str "1.0.0"), ("tools", Json.arr [sampleTool])]

/-- A 200 response carrying `sampleManifest`. -/
def ok200 : HttpOutcome := HttpOutcome.response 200 (Body.decoded sampleManifest)

/-- A 403 response with an empty (hence undecodable) body. -/
def resp403 : HttpOutcome := HttpOutcome.response 403 (Body.undecodable "" "no json")

/-- A 406 response with an empty (hence undecodable) body. -/
def resp406 : HttpOutcome := HttpOutcome.response 406 (Body.undecodable "" "no json")

theorem strLenAppend (a b : String) : (a ++ b).length = a.length + b.length := by
  cases a with
  | mk da =>
    cases b with
    | mk db => exact List.length_append da db

theorem len_pos_left (a b : String) (ha : 0 < a.length) : 0 < (a ++ b).length := by
  rw [strLenAppend]; omega

/-- On a body the classifier can process (decode failure or a JSON object),
every status outside the six dispatched ones yields the generic
`HTTP <status>: ...` error with that status code attached. -/
theorem handle_other_status (s : Nat) (body : Body) (hwf : dictOrUndecodable body = true)
    (h1 : s ≠ 400) (h2 : s ≠ 401) (h3 : s ≠ 403) (h4 : s ≠ 405) (h5 : s ≠ 406) (h6 : s ≠ 500) :
    ∃ msg, _handle_error_response s body =
      some (ClientError.unknownHttp ("HTTP " ++ toString s ++ ": " ++ msg) none (some s)) := by
  cases body with
  | undecodable t m =>
    refine ⟨(if t = "" then "Unknown error" else t), ?_⟩
    simp [_handle_error_response, lookupField, List.lookup, pyStr, h1, h2, h3, h4, h5, h6]
  | decoded j =>
    cases j <;> simp [dictOrUndecodable] at hwf
    case obj kvs =>
    refine ⟨(match lookupField kvs "error" with
             | some v => pyStr v
             | none => "HTTP " ++ toString s ++ " error"), ?_⟩
    simp [_handle_error_response, h1, h2, h3, h4, h5, h6]

/-- Structural facts about any error the classifier produces on a JSON
object body: non-empty message, never the transport kind, the 406 error
has a code but no status code, every other kind has the status code. -/
theorem handle_obj_shape (s : Nat) (kvs : List (String × Json)) (e : ClientError)
    (he : _handle_error_response s (Body.decoded (Json.obj kvs)) = some e) :
    0 < e.message.length
  ∧ e.kind ≠ ErrorKind.transportError
  ∧ (e.kind = ErrorKind.versionNotSupported →
       e.statusCode = none ∧ e.code = some "VERSION_NOT_SUPPORTED")
  ∧ (e.kind ≠ ErrorKind.versionNotSupported → e.statusCode = some s) := by
  rcases eq_or_ne s 400 with rfl | h400
  · simp only [_handle_error_response, Option.some.injEq] at he
    norm_num at he
    subst he
    exact ⟨len_pos_left _ _ (by decide), by simp [ClientError.kind],
      by simp [ClientError.kind], by simp [ClientError.kind, ClientError.statusCode]⟩
  rcases eq_or_ne s 401 with rfl | h401
  · simp only [_handle_error_response, Option.some.injEq] at he
    norm_num at he
    subst he
    exact ⟨len_pos_left _ _ (by decide), by simp [ClientError.kind],
      by simp [ClientError.kind], by simp [ClientError.kind, ClientError.statusCode]⟩
  rcases eq_or_ne s 403 with rfl | h403
  · simp only [_handle_error_response, Option.some.injEq] at he
    norm_num at he
    subst he
    exact ⟨len_pos_left _ _ (by decide), by simp [ClientError.kind],
      by simp [ClientError.kind], by simp [ClientError.kind, ClientError.statusCode]⟩
  rcases eq_or_ne s 405 with rfl | h405
  · simp only [_handle_error_response, Option.some.injEq] at he
    norm_num at he
    subst he
    exact ⟨len_pos_left _ _ (by decide), by simp [ClientError.kind],
      by simp [ClientError.kind], by simp [ClientError.kind, ClientError.statusCode]⟩
  rcases eq_or_ne s 406 with rfl | h406
  · simp only [_handle_error_response, Option.some.injEq] at he
    norm_num at he
    subst he
    exact ⟨len_pos_left _ _ (by decide), by simp [ClientError.kind],
      by simp [ClientError.kind, ClientError.statusCode, ClientError.code],
      by simp [ClientError.kind]⟩
  rcases eq_or_ne s 500 with rfl | h500
  · simp only [_handle_error_response, Option.some.injEq] at he
    norm_num at he
    subst he
    exact ⟨len_pos_left _ _ (by decide), by simp [ClientError.kind],
      by simp [ClientError.kind], by simp [ClientError.kind, ClientError.statusCode]⟩
  · obtain ⟨msg, hmsg⟩ :=
      handle_other_status s (Body.decoded (Json.obj kvs)) rfl h400 h401 h403 h405 h406 h500
    rw [hmsg] at he
    injection he with h2
    subst h2
    refine ⟨?_, by simp [ClientError.kind], by simp [ClientError.kind],
      by simp [ClientError.kind, ClientError.statusCode]⟩
    have h5 : ("HTTP ").length = 5 := rfl
    simp only [ClientError.message, strLenAppend]
    omega

/-- The shape facts extend to every body on which the classifier returns at
all: an undecodable body is processed exactly like its substituted
`\x7berror: ...\x7d` object, and a non-object decoded body never returns. -/
theorem handle_result_shape (s : Nat) (body : Body) (e : ClientError)
    (he : _handle_error_response s body = some e) :
    0 < e.message.length
  ∧ e.kind ≠ ErrorKind.transportError
  ∧ (e.kind = ErrorKind.versionNotSupported →
       e.statusCode = none ∧ e.code = some "VERSION_NOT_SUPPORTED")
  ∧ (e.kind ≠ ErrorKind.versionNotSupported → e.statusCode = some s) := by
  cases body with
  | undecodable t m =>
    exact handle_obj_shape s [("error", Json.str (if t = "" then "Unknown error" else t))] e he
  | decoded j =>
    cases j with
    | obj kvs => exact handle_obj_shape s kvs e he
    | null => exact Option.noConfusion he
    | bool b => exact Option.noConfusion he
    | num n => exact Option.noConfusion he
    | str t => exact Option.noConfusion he
    | arr xs => exact Option.noConfusion he

theorem wfTool_fields (t : Json) (h : wfTool t = true) :
    (∃ z, jsonIndex t "name" = some (Json.str z)) ∧ (∃ d, jsonIndex t "description" = some d) := by
  unfold wfTool at h
  split at h
  · next z d hn hd => exact ⟨⟨z, hn⟩, ⟨d, hd⟩⟩
  · exact absurd h (by simp)

theorem toolNameIs_iff (t : Json) (hw : wfTool t = true) (name : String) :
    toolNameIs name t = true ↔ jsonIndex t "name" = some (Json.str name) := by
  obtain ⟨⟨z, hz⟩, _⟩ := wfTool_fields t hw
  simp [toolNameIs, hz, pyEqStr]

/-- On well-formed descriptors, the Python `any` generator agrees with
`List.any`. -/
theorem anyToolNamed_eq_any (name : String) :
    ∀ ts : List Json, ts.all wfTool = true →
      anyToolNamed name ts = some (ts.any (toolNameIs name)) := by
  intro ts
  induction ts with
  | nil => intro _; rfl
  | cons t ts ih =>
    intro h
    rw [List.all_cons, Bool.and_eq_true] at h
    obtain ⟨⟨z, hz⟩, _⟩ := wfTool_fields t h.1
    by_cases hc : pyEqStr (Json.str z) name = true
    · simp [anyToolNamed, hz, hc, List.any_cons, toolNameIs]
    · rw [Bool.not_eq_true] at hc
      simp [anyToolNamed, hz, hc, List.any_cons, toolNameIs, ih h.2]

/-- On well-formed descriptors, the Python list comprehension agrees with
`List.map` over the name and description fields. -/
theorem collectTools_eq_map :
    ∀ ts : List Json, ts.all wfTool = true →
      collectTools ts = some (ts.map (fun t =>
        ((jsonIndex t "name").getD Json.null, (jsonIndex t "description").getD Json.null))) := by
  intro ts
  induction ts with
  | nil => intro _; rfl
  | cons t ts ih =>
    intro h
    rw [List.all_cons, Bool.and_eq_true] at h
    obtain ⟨⟨z, hz⟩, ⟨d, hd⟩⟩ := wfTool_fields t h.1
    simp [collectTools, hz, hd, ih h.2]

theorem dropWhile_head_false (p : Char → Bool) :
    ∀ (l : List Char) (c : Char), (List.dropWhile p l).head? = some c → p c = false := by
  intro l
  induction l with
  | nil => intro c hc; simp [List.dropWhile] at hc
  | cons x xs ih =>
    intro c hc
    rw [List.dropWhile_cons] at hc
    by_cases hx : p x = true
    · rw [if_pos hx] at hc
      exact ih c hc
    · rw [if_neg hx] at hc
      simp at hc
      subst hc
      exact Bool.not_eq_true _ ▸ Bool.of_not_eq_true hx

/-- After `rstrip("/")`, the result never ends in a slash. -/
theorem rstripSlash_no_trailing (base : String) :
    ∀ c, (rstripSlash base).data.getLast? = some c → c ≠ '/' := by
  intro c hc
  simp only [rstripSlash] at hc
  rw [List.getLast?_reverse] at hc
  have h2 := dropWhile_head_false (fun c => c == '/') _ c hc
  intro heq
  subst heq
  simp at h2

/-- C1 counterexample: the claim says the status-to-kind mapping `never
fails even on a malformed error body`, but on a body that decodes to the
JSON number 42 the classifier evaluates `error_data.get("error", ...)` on a
non-dict and raises AttributeError (modelled as `none`) instead of
producing the BadRequest error the table promises for status 400. -/
theorem classifier_crash_on_nonobject_body :
    _handle_error_response 400 (Body.decoded (Json.num 42)) = none := rfl

/-- C1 (amended): for every body that fails JSON decoding or decodes to a
JSON object, the classifier deterministically maps 400, 401, 403, 405, 406
and 500 to exactly the corresponding kinds, and every other status code to
UnknownHttpError carrying that numeric status code; on a body decoding to
a non-object JSON value it instead fails with an untyped error. -/
theorem classifier_status_dispatch (body : Body) (hwf : dictOrUndecodable body = true) :
    ((_handle_error_response 400 body).map ClientError.kind = some ErrorKind.badRequest)
  ∧ ((_handle_error_response 401 body).map ClientError.kind = some ErrorKind.authenticationFailed)
  ∧ ((_handle_error_response 403 body).map ClientError.kind = some ErrorKind.sessionExpired)
  ∧ ((_handle_error_response 405 body).map ClientError.kind = some ErrorKind.methodNotAllowed)
  ∧ ((_handle_error_response 406 body).map ClientError.kind = some ErrorKind.versionNotSupported)
  ∧ ((_handle_error_response 500 body).map ClientError.kind = some ErrorKind.serverError)
  ∧ (∀ s : Nat, s ≠ 400 → s ≠ 401 → s ≠ 403 → s ≠ 405 → s ≠ 406 → s ≠ 500 →
      (_handle_error_response s body).map ClientError.kind = some ErrorKind.unknownHttp
      ∧ (_handle_error_response s body).map ClientError.statusCode = some (some s)) := by
  cases body with
  | undecodable t m =>
    refine ⟨rfl, rfl, rfl, rfl, rfl, rfl, ?_⟩
    intro s h1 h2 h3 h4 h5 h6
    obtain ⟨msg, hmsg⟩ := handle_other_status s (Body.undecodable t m) rfl h1 h2 h3 h4 h5 h6
    rw [hmsg]
    exact ⟨rfl, rfl⟩
  | decoded j =>
    cases j <;> simp [dictOrUndecodable] at hwf
    case obj kvs =>
    refine ⟨rfl, rfl, rfl, rfl, rfl, rfl, ?_⟩
    intro s h1 h2 h3 h4 h5 h6
    obtain ⟨msg, hmsg⟩ :=
      handle_other_status s (Body.decoded (Json.obj kvs)) rfl h1 h2 h3 h4 h5 h6
    rw [hmsg]
    exact ⟨rfl, rfl⟩

/-- Witness for C1: the dispatch theorem applied to the empty undecodable
body, at status 400 and, for the default branch, at status 418. -/
theorem classifier_status_dispatch_witness :
    dictOrUndecodable (Body.undecodable "" "no json") = true
  ∧ (_handle_error_response 400 (Body.undecodable "" "no json")).map ClientError.kind =
      some ErrorKind.badRequest
  ∧ (_handle_error_response 418 (Body.undecodable "" "no json")).map ClientError.kind =
      some ErrorKind.unknownHttp :=
  ⟨rfl, (classifier_status_dispatch (Body.undecodable "" "no json") rfl).1,
    ((classifier_status_dispatch (Body.undecodable "" "no json") rfl).2.2.2.2.2.2
      418 (by decide) (by decide) (by decide) (by decide) (by decide) (by decide)).1⟩

/-- C2: for status 406 the classifier returns VersionNotSupported with
`requestedVersion` read from the body field of that name (default the
string `unknown`) and `supportedVersions` read from the body field of that
name (default the empty list): stated for every JSON-object body, for
every undecodable (including empty) body, and at the concrete body of the
claim. The error carries code VERSION_NOT_SUPPORTED and the message built
from the requested version. -/
theorem classify_406_version_extraction :
    (∀ kvs, _handle_error_response 406 (Body.decoded (Json.obj kvs)) =
      some (ClientError.versionNotSupported
        ("Unsupported version: " ++ pyStr ((lookupField kvs "requestedVersion").getD (Json.str "unknown")))
        (some "VERSION_NOT_SUPPORTED") none
        ((lookupField kvs "requestedVersion").getD (Json.str "unknown"))
        ((lookupField kvs "supportedVersions").getD (Json.arr []))))
  ∧ (∀ text errText, _handle_error_response 406 (Body.undecodable text errText) =
      some (ClientError.versionNotSupported "Unsupported version: unknown"
        (some "VERSION_NOT_SUPPORTED") none (Json.str "unknown") (Json.arr [])))
  ∧ (_handle_error_response 406
      (Body.decoded (Json.obj [("requestedVersion", Json.str "2.0.0"),
        ("supportedVersions", Json.arr [Json.str "1.0.0"])])) =
      some (ClientError.versionNotSupported "Unsupported version: 2.0.0"
        (some "VERSION_NOT_SUPPORTED") none (Json.str "2.0.0") (Json.arr [Json.str "1.0.0"]))) :=
  ⟨fun _ => rfl, fun _ _ => rfl, rfl⟩

/-- C3: `test_version_negotiation` wraps a successful manifest fetch as a
success result carrying the manifest and its `apiVersion`; it wraps a
VersionNotSupported error, and only that kind, as a failure result carrying
the requested and supported versions from the error; every other
ClientError kind propagates uncaught. -/
theorem version_negotiation_branches (rv : String) (h : HttpOutcome) :
    (∀ manifest v, get_tool_manifest h = PyResult.ok manifest →
        jsonIndex manifest "apiVersion" = some v →
        test_version_negotiation rv h = PyResult.ok
          { success := true, version := some v, manifest := some manifest })
  ∧ (∀ msg c st r sv,
        get_tool_manifest h = PyResult.clientError (ClientError.versionNotSupported msg c st r sv) →
        test_version_negotiation rv h = PyResult.ok
          { success := false, error := some msg, requested_version := some r,
            supported_versions := some sv })
  ∧ (∀ e, get_tool_manifest h = PyResult.clientError e → e.kind ≠ ErrorKind.versionNotSupported →
        test_version_negotiation rv h = PyResult.clientError e) := by
  refine ⟨?_, ?_, ?_⟩
  · intro manifest v hm hv
    simp [test_version_negotiation, hm, hv]
  · intro msg c st r sv hm
    simp [test_version_negotiation, hm]
  · intro e he hk
    cases e <;> first
      | exact absurd rfl hk
      | simp [test_version_negotiation, he]

/-- Witness for C3: the failure branch at a 406 response with an empty
body. -/
theorem version_negotiation_branches_witness :
    get_tool_manifest resp406 = PyResult.clientError
      (ClientError.versionNotSupported "Unsupported version: unknown"
        (some "VERSION_NOT_SUPPORTED") none (Json.str "unknown") (Json.arr []))
  ∧ test_version_negotiation "2.0.0" resp406 = PyResult.ok
      { success := false, error := some "Unsupported version: unknown",
        requested_version := some (Json.str "unknown"),
        supported_versions := some (Json.arr []) } :=
  ⟨rfl, (version_negotiation_branches "2.0.0" resp406).2.1 "Unsupported version: unknown"
    (some "VERSION_NOT_SUPPORTED") none (Json.str "unknown") (Json.arr []) rfl⟩

/-- C4: every ClientError raised by `get_tool_manifest` is swallowed by the
three convenience methods, which return false, None and the empty list
respectively; on success with a manifest whose `tools` is a list of
well-formed descriptors, `is_tool_available` is true exactly when some
descriptor bears the given name, and `list_available_tools` returns the
name-description pairs in manifest order. -/
theorem convenience_methods_swallow_errors (h : HttpOutcome) (tool_name : String) :
    (∀ e, get_tool_manifest h = PyResult.clientError e →
        is_tool_available h tool_name = PyResult.ok false
      ∧ get_tool_schema h tool_name = PyResult.ok none
      ∧ list_available_tools h = PyResult.ok [])
  ∧ (∀ manifest ts, get_tool_manifest h = PyResult.ok manifest →
        jsonIndex manifest "tools" = some (Json.arr ts) → ts.all wfTool = true →
        (is_tool_available h tool_name = PyResult.ok true ↔
           ∃ t ∈ ts, jsonIndex t "name" = some (Json.str tool_name))
      ∧ list_available_tools h = PyResult.ok
          (ts.map (fun t =>
            ((jsonIndex t "name").getD Json.null, (jsonIndex t "description").getD Json.null)))) := by
  constructor
  · intro e he
    exact ⟨by simp [is_tool_available, he], by simp [get_tool_schema, he],
           by simp [list_available_tools, he]⟩
  · intro manifest ts hm ht hwf
    have htools : toolsOf manifest = ToolsVal.list ts := by simp [toolsOf, ht]
    have hall : ∀ t ∈ ts, wfTool t = true := by
      intro t htm
      exact List.all_eq_true.mp hwf t htm
    constructor
    · simp only [is_tool_available, hm, htools, anyToolNamed_eq_any tool_name ts hwf]
      simp only [PyResult.ok.injEq]
      rw [List.any_eq_true]
      constructor
      · rintro ⟨t, htm, hp⟩
        exact ⟨t, htm, (toolNameIs_iff t (hall t htm) tool_name).mp hp⟩
      · rintro ⟨t, htm, hp⟩
        exact ⟨t, htm, (toolNameIs_iff t (hall t htm) tool_name).mpr hp⟩
    · simp only [list_available_tools, hm, htools, collectTools_eq_map ts hwf]

/-- Witness for C4: the swallow branch at a 403 response, and the success
branch on the sample manifest. -/
theorem convenience_methods_swallow_errors_witness :
    (is_tool_available resp403 "x" = PyResult.ok false
      ∧ get_tool_schema resp403 "x" = PyResult.ok none
      ∧ list_available_tools resp403 = PyResult.ok [])
  ∧ is_tool_available ok200 "x" = PyResult.ok true
  ∧ list_available_tools ok200 = PyResult.ok [(Json.str "x", Json.str "d")] :=
  ⟨(convenience_methods_swallow_errors resp403 "x").1
      (ClientError.sessionExpired "Forbidden: Unknown error" (some "SESSION_EXPIRED") (some 403)) rfl,
   ((convenience_methods_swallow_errors ok200 "x").2 sampleManifest [sampleTool]
      rfl rfl rfl).1.mpr ⟨sampleTool, by simp, rfl⟩,
   ((convenience_methods_swallow_errors ok200 "x").2 sampleManifest [sampleTool]
      rfl rfl rfl).2⟩

/-- C5 counterexample: the claim says every kind except TransportError
carries the originating HTTP status code, but `VersionNotSupportedError`
forwards only the message and code to the base class, so the 406 error
carries no status code at all. -/
theorem version_not_supported_lacks_status :
    ¬ (∀ (s : Nat) (body : Body) (e : ClientError),
        _handle_error_response s body = some e →
        e.kind ≠ ErrorKind.transportError → e.statusCode.isSome = true) := by
  intro hcl
  exact absurd
    (hcl 406 (Body.undecodable "" "no json")
      (ClientError.versionNotSupported "Unsupported version: unknown"
        (some "VERSION_NOT_SUPPORTED") none (Json.str "unknown") (Json.arr []))
      rfl (by decide))
    (by decide)

/-- C5 (amended): every ClientError produced by `get_tool_manifest` carries
a non-empty human-readable message and an optional machine code; every
kind except TransportError AND VersionNotSupported carries the originating
HTTP status code; TransportError carries neither code nor status;
VersionNotSupported carries code VERSION_NOT_SUPPORTED (plus the requested
and supported versions) but no status code. -/
theorem client_error_fields (h : HttpOutcome) (e : ClientError)
    (he : get_tool_manifest h = PyResult.clientError e) :
    0 < e.message.length
  ∧ (e.kind = ErrorKind.transportError → e.statusCode = none ∧ e.code = none)
  ∧ (e.kind = ErrorKind.versionNotSupported →
       e.statusCode = none ∧ e.code = some "VERSION_NOT_SUPPORTED")
  ∧ (∀ s body, h = HttpOutcome.response s body → e.kind ≠ ErrorKind.transportError →
       e.kind ≠ ErrorKind.versionNotSupported → e.statusCode = some s) := by
  cases h with
  | exn msg =>
    simp only [get_tool_manifest, PyResult.clientError.injEq] at he
    subst he
    refine ⟨len_pos_left _ _ (by decide), fun _ => ⟨rfl, rfl⟩, ?_, ?_⟩
    · intro hk
      exact absurd hk (by simp [ClientError.kind])
    · intro s body heq
      exact absurd heq (by simp)
  | response s body =>
    by_cases hs : s = 200
    · subst hs
      cases body with
      | decoded j => exact absurd he (by simp [get_tool_manifest])
      | undecodable t m =>
        simp only [get_tool_manifest, PyResult.clientError.injEq] at he
        norm_num at he
        subst he
        refine ⟨len_pos_left _ _ (by decide), fun _ => ⟨rfl, rfl⟩, ?_, ?_⟩
        · intro hk
          exact absurd hk (by simp [ClientError.kind])
        · intro s2 body2 heq hk1 hk2
          exact absurd rfl hk1
    · cases hh : _handle_error_response s body with
      | none =>
        rw [show get_tool_manifest (HttpOutcome.response s body) = PyResult.crash by
          simp [get_tool_manifest, hs, hh]] at he
        exact PyResult.noConfusion he
      | some e2 =>
        rw [show get_tool_manifest (HttpOutcome.response s body) = PyResult.clientError e2 by
          simp [get_tool_manifest, hs, hh]] at he
        injection he with h2
        subst h2
        have shape := handle_result_shape s body e2 hh
        refine ⟨shape.1, fun hk => absurd hk shape.2.1, shape.2.2.1, ?_⟩
        intro s2 body2 heq hk1 hk2
        injection heq with hseq hbeq
        subst hseq
        exact shape.2.2.2 hk2

/-- Witness for C5: the field facts at a transport failure. -/
theorem client_error_fields_witness :
    get_tool_manifest (HttpOutcome.exn "boom") = PyResult.clientError
      (ClientError.transportError "Network error: boom" none none)
  ∧ 0 < (ClientError.transportError "Network error: boom" none none).message.length
  ∧ (ClientError.transportError "Network error: boom" none none).statusCode = none :=
  ⟨rfl,
   (client_error_fields (HttpOutcome.exn "boom")
      (ClientError.transportError "Network error: boom" none none) rfl).1,
   ((client_error_fields (HttpOutcome.exn "boom")
      (ClientError.transportError "Network error: boom" none none) rfl).2.1 rfl).1⟩

/-- C6 counterexample: a 200 response whose body is valid JSON but in no
way a ToolManifest (the number 42) is returned as success by
`get_tool_manifest`, not turned into a body-parse error. -/
theorem malformed_manifest_returned_as_success :
    get_tool_manifest (HttpOutcome.response 200 (Body.decoded (Json.num 42))) =
      PyResult.ok (Json.num 42) := rfl

/-- C6 (amended): a 200 response whose body fails JSON decoding makes
`get_tool_manifest` fail with the generic network-error ClientError (the
TransportError kind, because `Response.json()` raises a RequestException
subclass), never a raw or untyped parse failure and never success; a 200
body that is valid JSON is returned as success unvalidated. -/
theorem success_parse_failure_behaviour :
    (∀ text errText,
        get_tool_manifest (HttpOutcome.response 200 (Body.undecodable text errText)) =
          PyResult.clientError
            (ClientError.transportError ("Network error: " ++ errText) none none))
  ∧ (∀ j, get_tool_manifest (HttpOutcome.response 200 (Body.decoded j)) = PyResult.ok j) :=
  ⟨fun _ _ => rfl, fun _ => rfl⟩

/-- C7 counterexample: the claim says the headers contain Accept-Version
exactly when apiVersion is provided, but providing the empty string fails
the Python truthiness test `if api_version:` and yields no header. -/
theorem accept_version_header_truthiness :
    ¬ (∀ base sid v,
        List.lookup "Accept-Version" (build_request base sid (some v)).headers = some v) :=
  fun hcl => absurd (hcl "https://x.example" "s1" "") (by decide)

/-- C7 (amended): the built URL is the base URL with trailing slashes
trimmed (the result never ends in a slash) followed by
/api/sessions/sessionId/metadata, and the request headers carry
Accept-Version exactly when apiVersion is provided AND non-empty. -/
theorem build_request_spec (base sid : String) :
    (∀ v, v ≠ "" → (build_request base sid (some v)).headers = [("Accept-Version", v)])
  ∧ (build_request base sid (some "")).headers = []
  ∧ (build_request base sid none).headers = []
  ∧ (∀ ov, (build_request base sid ov).url =
       rstripSlash base ++ "/api/sessions/" ++ sid ++ "/metadata")
  ∧ (∀ c, (rstripSlash base).data.getLast? = some c → c ≠ '/') := by
  refine ⟨?_, rfl, rfl, ?_, rstripSlash_no_trailing base⟩
  · intro v hv
    simp [build_request, hv]
  · intro ov
    cases ov <;> rfl

/-- Witness for C7: a non-empty version yields exactly the Accept-Version
header, at a base URL with a trailing slash. -/
theorem build_request_spec_witness :
    ("1.2.0" ≠ "")
  ∧ (build_request "https://x.example/" "s1" (some "1.2.0")).headers =
      [("Accept-Version", "1.2.0")]
  ∧ (build_request "https://x.example/" "s1" (some "1.2.0")).url =
      "https://x.example/api/sessions/s1/metadata" :=
  ⟨by decide, (build_request_spec "https://x.example/" "s1").1 "1.2.0" (by decide), by decide⟩

/-- C8: every transport-level failure (network error or timeout raised as
a RequestException) surfaces from `get_tool_manifest` as the TransportError
kind, with a non-empty message and no HTTP status code, never as an
unhandled transport exception. -/
theorem transport_error_surfaced (msg : String) :
    get_tool_manifest (HttpOutcome.exn msg) = PyResult.clientError
      (ClientError.transportError ("Network error: " ++ msg) none none)
  ∧ (ClientError.transportError ("Network error: " ++ msg) none none).kind =
      ErrorKind.transportError
  ∧ (ClientError.transportError ("Network error: " ++ msg) none none).statusCode = none
  ∧ 0 < (ClientError.transportError ("Network error: " ++ msg) none none).message.length :=
  ⟨rfl, rfl, rfl, len_pos_left _ _ (by decide)⟩

/-- C9: every result value `test_version_negotiation` returns has exactly
one branch populated: on success the version and manifest are present and
the failure fields absent, on failure the error, requested and supported
versions are present and the success fields absent. -/
theorem negotiation_result_exclusive (rv : String) (h : HttpOutcome)
    (r : VersionNegotiationResult)
    (hr : test_version_negotiation rv h = PyResult.ok r) :
    (r.success = true → r.version.isSome ∧ r.manifest.isSome ∧ r.error = none
       ∧ r.requested_version = none ∧ r.supported_versions = none)
  ∧ (r.success = false → r.error.isSome ∧ r.requested_version.isSome
       ∧ r.supported_versions.isSome ∧ r.version = none ∧ r.manifest = none) := by
  unfold test_version_negotiation at hr
  split at hr
  · split at hr
    · cases hr
      exact ⟨fun _ => by simp, fun hf => by simp at hf⟩
    · cases hr
  · split at hr
    · cases hr
      exact ⟨fun ht => by simp at ht, fun _ => by simp⟩
    · cases hr
  · cases hr

/-- Witness for C9: the success branch on the sample manifest. -/
theorem negotiation_result_exclusive_witness :
    test_version_negotiation "1.0.0" ok200 = PyResult.ok
      { success := true, version := some (Json.str "1.0.0"), manifest := some sampleManifest }
  ∧ (({ success := true, version := some (Json.str "1.0.0"),
        manifest := some sampleManifest } : VersionNegotiationResult).success = true →
      ({ success := true, version := some (Json.str "1.0.0"),
         manifest := some sampleManifest } : VersionNegotiationResult).version.isSome
      ∧ ({ success := true, version := some (Json.str "1.0.0"),
           manifest := some sampleManifest } : VersionNegotiationResult).manifest.isSome
      ∧ ({ success := true, version := some (Json.str "1.0.0"),
           manifest := some sampleManifest } : VersionNegotiationResult).error = none
      ∧ ({ success := true, version := some (Json.str "1.0.0"),
           manifest := some sampleManifest } : VersionNegotiationResult).requested_version = none
      ∧ ({ success := true, version := some (Json.str "1.0.0"),
           manifest := some sampleManifest } : VersionNegotiationResult).supported_versions = none) :=
  ⟨rfl, (negotiation_result_exclusive "1.0.0" ok200
    { success := true, version := some (Json.str "1.0.0"), manifest := some sampleManifest }
    rfl).1⟩

/-- C10: for every 2xx status other than 200, with a body the classifier
can process, `get_tool_manifest` never returns a manifest and instead
raises the UnknownHttpError kind carrying that status code. -/
theorem only_200_treated_as_success (s : Nat) (body : Body)
    (hwf : dictOrUndecodable body = true) (hlo : 200 ≤ s) (hhi : s < 300) (hne : s ≠ 200) :
    (∀ j, get_tool_manifest (HttpOutcome.response s body) ≠ PyResult.ok j)
  ∧ ∃ msg, get_tool_manifest (HttpOutcome.response s body) =
      PyResult.clientError (ClientError.unknownHttp msg none (some s)) := by
  obtain ⟨msg, hmsg⟩ := handle_other_status s body hwf
    (by omega) (by omega) (by omega) (by omega) (by omega) (by omega)
  have hgtm : get_tool_manifest (HttpOutcome.response s body) =
      PyResult.clientError (ClientError.unknownHttp ("HTTP " ++ toString s ++ ": " ++ msg)
        none (some s)) := by
    simp [get_tool_manifest, hne, hmsg]
  refine ⟨?_, ⟨_, hgtm⟩⟩
  intro j hj
  rw [hgtm] at hj
  exact PyResult.noConfusion hj

/-- Witness for C10: status 201 with an empty body is classified as the
generic HTTP error, not returned as a manifest. -/
theorem only_200_treated_as_success_witness :
    dictOrUndecodable (Body.undecodable "" "no json") = true
  ∧ ((∀ j, get_tool_manifest (HttpOutcome.response 201 (Body.undecodable "" "no json")) ≠
        PyResult.ok j)
    ∧ ∃ msg, get_tool_manifest (HttpOutcome.response 201 (Body.undecodable "" "no json")) =
        PyResult.clientError (ClientError.unknownHttp msg none (some 201))) :=
  ⟨rfl, only_200_treated_as_success 201 (Body.undecodable "" "no json") rfl
    (by decide) (by decide) (by decide)⟩

end MetadataClient
